import Mathlib

/-!
Verification of the cross-runtime marshaling and safe-dispatch layer of the
`dart_rs` crate, as a shallow embedding in Lean.

Host-VM (Dart) entry points are foreign code; a handle is modelled as a record
bundling the raw pointer value with the host's classification predicates on it
(`Dart_IsError`, `Dart_IsString`, ...), and host calls that mint fresh data are
fields of an explicit `Host` record.  Pointers in the C tagged union
`Dart_CObject` are modelled by the data they point at; machine integers are
`Int`/`Nat` (the conversions under study copy them opaquely, so overflow never
arises); the `f64` payload is carried as its 64-bit pattern, which both
conversion directions copy unchanged.  Rust `panic!`/`unimplemented!` paths are
modelled by an explicit result constructor or by `Option.none`, as noted at
each definition.
-/

/-- `ErrorKind` from `dart_handle.rs`: the closed error taxonomy. -/
inductive ErrorKind where
  | Api
  | UnhandledException
  | Compilation
  | Fatal
deriving DecidableEq

/--
Model of `UnverifiedDartHandle`: the raw handle value together with the host
VM's predicates on that handle (`Dart_IsError`, `Dart_IsUnhandledExceptionError`,
`Dart_IsApiError`, `Dart_IsCompilationError`, `Dart_IsFatalError`,
`Dart_IsString`) and the outcome of `Object.toString()` on it
(`none` models a `to_string` call that returned an error handle).
-/
structure UnverifiedDartHandle where
  raw : Nat
  isError : Bool
  isUnhandledException : Bool
  isApi : Bool
  isCompilation : Bool
  isFatal : Bool
  isString : Bool
  toStringResult : Option (List Nat)
deriving DecidableEq

/-- `Error` from `dart_handle.rs`: an error handle tagged with its kind. -/
structure Error where
  handle : UnverifiedDartHandle
  kind : ErrorKind
deriving DecidableEq

/--
Result of `UnverifiedDartHandle::get_error`.  `panicked` models the
`panic!("This shouldn't ever happen!")` arm reached when the host reports an
error handle that satisfies none of the four taxonomy predicates.
-/
inductive GetErrorResult where
  | ok (h : UnverifiedDartHandle)
  | err (e : Error)
  | panicked
deriving DecidableEq

/--
`UnverifiedDartHandle::get_error` (dart_handle.rs, lines 142-160): if the
handle is an error, test `Dart_IsUnhandledExceptionError`, `Dart_IsApiError`,
`Dart_IsCompilationError`, `Dart_IsFatalError` in that order and wrap the
handle in an `Error` tagged with the first predicate that holds; panic when
none holds; return the handle unchanged when it is not an error.
-/
def UnverifiedDartHandle.get_error (self : UnverifiedDartHandle) : GetErrorResult :=
  if self.isError then
    if self.isUnhandledException then .err ⟨self, .UnhandledException⟩
    else if self.isApi then .err ⟨self, .Api⟩
    else if self.isCompilation then .err ⟨self, .Compilation⟩
    else if self.isFatal then .err ⟨self, .Fatal⟩
    else .panicked
  else .ok self

/--
Classification as the spec states it, for the refinement claim about
`get_error`: test the four taxonomy predicates in the spec's fixed order
(UnhandledException, Api, Compilation, Fatal); the first match wins; fail
loudly when the handle is an error and none matches.
-/
def classify_spec (h : UnverifiedDartHandle) : GetErrorResult :=
  if h.isError then
    match ([(h.isUnhandledException, ErrorKind.UnhandledException),
            (h.isApi, ErrorKind.Api),
            (h.isCompilation, ErrorKind.Compilation),
            (h.isFatal, ErrorKind.Fatal)]).find? (fun p => p.1) with
    | some p => .err ⟨h, p.2⟩
    | none => .panicked
  else .ok h

/--
The host entry points used by `Error::get_exception` / `Error::get_stack_trace`,
mapping a raw error handle to the raw handle of its exception / stack trace.
-/
structure Host where
  errorGetException : Nat → Nat
  errorGetStackTrace : Nat → Nat

/--
Result of the `Error` accessors.  `panicked` models the
`assert_ne!(handle, null)` in `UnverifiedDartHandle::new` firing on a null
handle coming back from the host.
-/
inductive AccessorResult where
  | panicked
  | value (v : Option Nat)
deriving DecidableEq

/--
`Error::get_exception` (dart_handle.rs, lines 1175-1185): only the
`UnhandledException` variant queries `Dart_ErrorGetException` and wraps the
result (whose wrapping asserts it is non-null); every other kind returns
`None` without calling the host.
-/
def Error.get_exception (host : Host) (self : Error) : AccessorResult :=
  match self.kind with
  | .UnhandledException =>
    let r := host.errorGetException self.handle.raw
    if r = 0 then .panicked else .value (some r)
  | _ => .value none

/-- `Error::get_stack_trace` (dart_handle.rs, lines 1187-1197): same shape as
`get_exception`, querying `Dart_ErrorGetStackTrace`. -/
def Error.get_stack_trace (host : Host) (self : Error) : AccessorResult :=
  match self.kind with
  | .UnhandledException =>
    let r := host.errorGetStackTrace self.handle.raw
    if r = 0 then .panicked else .value (some r)
  | _ => .value none

/-- `ILLEGAL_PORT` of the Dart embedding ABI: the reserved illegal-port
sentinel, numerically zero. -/
def ILLEGAL_PORT : Int := 0

/-- `Port` from `dart_handle.rs`: a raw `Dart_Port` id known not to be the
illegal sentinel. -/
structure Port where
  port : Int
deriving DecidableEq

/-- `Port::from_port` (dart_handle.rs, lines 1292-1298): reject the
`ILLEGAL_PORT` sentinel, wrap every other id. -/
def Port.from_port (port : Int) : Option Port :=
  if port = ILLEGAL_PORT then none else some ⟨port⟩

/-- `Dart_SendPort`: the send-port payload of a `Dart_CObject`, copied
wholesale by both conversions. -/
structure Dart_SendPort where
  id : Int
  origin_id : Int
deriving DecidableEq

/-- `Dart_TypedData`: a host-owned typed-data payload (type tag, length, data
pointer), copied wholesale by both conversions. -/
structure Dart_TypedData where
  type_ : Nat
  length : Int
  values : Nat
deriving DecidableEq

/-- `Dart_ExternalTypedData`: a natively-owned external buffer payload (type
tag, length, data pointer, peer pointer, finalizer callback), copied wholesale
by both conversions.  The callback is identified by an optional code. -/
structure Dart_ExternalTypedData where
  type_ : Nat
  length : Int
  data : Nat
  peer : Nat
  callback : Option Nat
deriving DecidableEq

/-- `TypedDataArray<dyn Any>` from `dart_cobject.rs`: the two mutually
exclusive buffer-ownership modes. -/
inductive TypedDataArray where
  | WithoutFinalizer (x : Dart_TypedData)
  | WithFinalizer (x : Dart_ExternalTypedData)

/--
`CObject` from `dart_cobject.rs`: the recursive tagged union crossing the
message channel.  A `String` holds the bytes of its backing `CString`; the
`CString` type invariant (no interior nul byte) is stated separately as
`CObject.stringsValid` because this model uses plain byte lists.
-/
inductive CObject where
  | Null
  | Bool (b : Bool)
  | Int32 (x : Int)
  | Int64 (x : Int)
  | Double (bits : Nat)
  | String (bytes : List Nat)
  | SendPort (s : Dart_SendPort)
  | Array (xs : List CObject)
  | TypedData (t : TypedDataArray)

/--
The C-side `Dart_CObject` tagged union, with pointers replaced by the data
they point at: the `as_string` pointer becomes the pointed-at byte memory
(terminating nul included), the `as_array` pointer array becomes the list of
pointed-at records.
-/
inductive Dart_CObject where
  | null
  | bool (b : Bool)
  | int32 (x : Int)
  | int64 (x : Int)
  | double (bits : Nat)
  | string (mem : List Nat)
  | sendPort (s : Dart_SendPort)
  | array (xs : List Dart_CObject)
  | typedData (x : Dart_TypedData)
  | externalTypedData (x : Dart_ExternalTypedData)
  | capability
  | unsupported
  | numberOfTypes

/-- Byte is not the C string terminator (the scan predicate of
`CStr::from_ptr`, and the byte condition `CString::new` checks). -/
def c_nonzero (b : Nat) : Bool := b != 0

mutual

/--
`CObject::from` (dart_cobject.rs, lines 22-53) — named `from_host` here since
`from` is reserved in Lean.  Scalars are copied by value; `String` copies the
pointed-at bytes up to the first nul (`CStr::from_ptr(...).to_owned()`);
`Array` recurses over every element; `TypedData`/`ExternalTypedData` select the
two buffer-ownership modes.  `none` models the `panic!` on `Unsupported` and
the `unimplemented!` on `NumberOfTypes` and `Capability`.
-/
def CObject.from_host : Dart_CObject → Option CObject
  | .null => some .Null
  | .bool b => some (.Bool b)
  | .int32 x => some (.Int32 x)
  | .int64 x => some (.Int64 x)
  | .double d => some (.Double d)
  | .sendPort s => some (.SendPort s)
  | .string mem => some (.String (mem.takeWhile c_nonzero))
  | .array xs =>
    match fromHostList xs with
    | some ys => some (.Array ys)
    | none => none
  | .typedData x => some (.TypedData (.WithoutFinalizer x))
  | .externalTypedData x => some (.TypedData (.WithFinalizer x))
  | .unsupported => none
  | .numberOfTypes => none
  | .capability => none

/-- Element-wise ingestion of a C array payload (the `map` inside
`CObject::from`'s `Array` arm); a panic in any element is a panic of the
whole conversion. -/
def fromHostList : List Dart_CObject → Option (List CObject)
  | [] => some []
  | x :: xs =>
    match CObject.from_host x, fromHostList xs with
    | some y, some ys => some (y :: ys)
    | _, _ => none

end

mutual

/--
`CObject::into_leak` (dart_cobject.rs, lines 55-94): consume the value and
produce the C tagged union.  `String` releases its bytes via
`CString::into_raw`, so the pointed-at memory is the bytes followed by the
terminating nul; `Array` leaks one allocation per element and assembles the
pointer array; the two buffer modes map back to the `TypedData` /
`ExternalTypedData` tags.
-/
def CObject.into_leak : CObject → Dart_CObject
  | .Null => .null
  | .Bool x => .bool x
  | .Int32 x => .int32 x
  | .Int64 x => .int64 x
  | .Double x => .double x
  | .TypedData (.WithoutFinalizer x) => .typedData x
  | .TypedData (.WithFinalizer x) => .externalTypedData x
  | .SendPort s => .sendPort s
  | .Array xs => .array (intoLeakList xs)
  | .String bytes => .string (bytes ++ [0])

/-- Element-wise leaked export of an array (the `map` inside
`CObject::into_leak`'s `Array` arm). -/
def intoLeakList : List CObject → List Dart_CObject
  | [] => []
  | x :: xs => x.into_leak :: intoLeakList xs

end

mutual

/-- No `WithoutFinalizer` (host-owned buffer) leaf anywhere in the tree: the
side condition of the round-trip claim. -/
def CObject.noHostBuf : CObject → Bool
  | .TypedData (.WithoutFinalizer _) => false
  | .Array xs => noHostBufList xs
  | _ => true

def noHostBufList : List CObject → Bool
  | [] => true
  | x :: xs => x.noHostBuf && noHostBufList xs

end

mutual

/-- Every `String` leaf satisfies the `CString` type invariant (no interior
nul byte), which the byte-list model states explicitly. -/
def CObject.stringsValid : CObject → Bool
  | .String bytes => bytes.all c_nonzero
  | .Array xs => stringsValidList xs
  | _ => true

def stringsValidList : List CObject → Bool
  | [] => true
  | x :: xs => x.stringsValid && stringsValidList xs

end

/-- A concrete value tree exercising every non-host-owned constructor, used to
instantiate the round-trip theorem. -/
def c1_example : CObject :=
  .Array [.Int32 5, .Int64 (-7), .Bool true, .Null, .Double 42,
          .String [104, 105], .SendPort ⟨3, 4⟩,
          .TypedData (.WithFinalizer ⟨2, 3, 100, 200, some 7⟩),
          .Array [.Null, .String []]]

/-- The payload of a caught Rust panic, as the dispatch wrapper's two
downcasts see it: a `String`, a `&'static str`, or anything else. -/
inductive PanicPayload where
  | stringPayload (msg : String)
  | strPayload (msg : String)
  | other
deriving DecidableEq

/-- What running the wrapped user function did: returned normally, or panicked
with some payload. -/
inductive RunOutcome where
  | ok
  | panicked (p : PanicPayload)
deriving DecidableEq

/-- A string contains the nul character (the condition making
`CString::new` fail). -/
def has_nul (s : String) : Bool := s.toList.any (fun c => c.toNat = 0)

/-- The message extraction of `catch_panic_hook`: a `String` payload gives its
contents, else a `&str` payload gives its contents, else the fixed fallback
message. -/
def panic_message : PanicPayload → String
  | .stringPayload s => s
  | .strPayload s => s
  | .other => "Panic of unknown nature in Rust code!"

/--
`Error::new_api` (dart_handle.rs, lines 1199-1207): builds a host `Api` error
carrying `message`; fails (`Err(NulError)`) when the message has an interior
nul byte, because `CString::new` rejects it.  The model returns the kind and
the message handed to `Dart_NewApiError`.
-/
def Error.new_api (message : String) : Option (ErrorKind × String) :=
  if has_nul message then none else some (ErrorKind.Api, message)

/--
Result of the synchronous dispatch wrapper.  `returned` is a normal return;
`propagated k m` is `Dart_PropagateError` on an error of kind `k` carrying
message `m` (a non-returning transfer into the host); `panickedInHook` is the
wrapper itself panicking after the catch (the `.unwrap()` on `new_api`), which
unwinds out of the dispatch boundary.
-/
inductive SyncDispatchResult where
  | returned
  | propagated (kind : ErrorKind) (msg : String)
  | panickedInHook
deriving DecidableEq

/--
`catch_panic_hook` (lib.rs, lines 229-249): run the wrapped function under
`catch_unwind`; on a caught panic, extract a message from the payload (string
contents, else the fixed fallback), build an Api error with
`Error::new_api(msg).unwrap()` and propagate it into the host.  The function
is modelled on the outcome of the wrapped call.
-/
def catch_panic_hook (outcome : RunOutcome) : SyncDispatchResult :=
  match outcome with
  | .ok => .returned
  | .panicked p =>
    match Error.new_api (panic_message p) with
    | some e => .propagated e.1 e.2
    | none => .panickedInHook

/-- Result of the asynchronous dispatch wrapper: the process either survives
the callback or is aborted.  There is deliberately no error variant: the
source never converts an async panic into a host error. -/
inductive AsyncDispatchResult where
  | returned
  | aborted
deriving DecidableEq

/--
`catch_async_panic` (lib.rs, lines 321-337): run
`func(CObject::from(*message), Port::from_port(port).unwrap())` under
`catch_unwind` and abort the process if anything in the closure panicked.
A `from` panic (unsupported tag) and the `.unwrap()` panic on an illegal port
happen inside the closure, so they abort as well.
-/
def catch_async_panic (func : CObject → Port → RunOutcome) (port : Int)
    (message : Dart_CObject) : AsyncDispatchResult :=
  let closure_result : RunOutcome :=
    match CObject.from_host message with
    | none => .panicked .other
    | some m =>
      match Port.from_port port with
      | none => .panicked .other
      | some p => func m p
  match closure_result with
  | .ok => .returned
  | .panicked _ => .aborted

/-- A concrete async handler that always panics, used to instantiate the
abort theorem. -/
def c4_panicking_handler : CObject → Port → RunOutcome :=
  fun _ _ => .panicked .other

/--
Heap state of the external-buffer construction/finalization protocol: whether
the leaked buffer allocation (`Box::leak(data.into_boxed_slice())`) and the
leaked peer descriptor (`Box::leak(Box::new(ptr))`) are live, and whether any
free was attempted on an already-freed block (a double free).
-/
structure BufferHeap where
  bufAllocated : Bool
  peerAllocated : Bool
  doubleFree : Bool
deriving DecidableEq

/-- The heap before any construction. -/
def empty_heap : BufferHeap := ⟨false, false, false⟩

/-- Effect of `Box::leak(data.into_boxed_slice())`: the buffer becomes a live
allocation that nothing tracks for deallocation. -/
def alloc_buffer (h : BufferHeap) : BufferHeap :=
  ⟨true, h.peerAllocated, h.doubleFree⟩

/-- Effect of `Box::leak(Box::new(ptr))`: the peer descriptor becomes a live
untracked allocation. -/
def alloc_peer (h : BufferHeap) : BufferHeap :=
  ⟨h.bufAllocated, true, h.doubleFree⟩

/-- `Box::from_raw(*ptr); drop(...)` on the buffer: frees it if live,
otherwise records a double free. -/
def free_buffer (h : BufferHeap) : BufferHeap :=
  if h.bufAllocated then ⟨false, h.peerAllocated, h.doubleFree⟩
  else ⟨h.bufAllocated, h.peerAllocated, true⟩

/-- `Box::from_raw(ptr); drop(...)` on the peer descriptor: frees it if live,
otherwise records a double free. -/
def free_peer (h : BufferHeap) : BufferHeap :=
  if h.peerAllocated then ⟨h.bufAllocated, false, h.doubleFree⟩
  else ⟨h.bufAllocated, h.peerAllocated, true⟩

/-- Heap effect of the construction in `TypedDataArray::create`
(dart_cobject.rs, lines 211-233): leak the buffer, then leak the peer
descriptor; nothing is freed. -/
def TypedDataArray.create_allocs (h : BufferHeap) : BufferHeap :=
  alloc_peer (alloc_buffer h)

/-- Heap effect of one invocation of the finalizer registered by
`TypedDataArray::create` (the local `free::<T>`): reconstruct and drop the
buffer from `*peer`, then reconstruct and drop the peer box itself. -/
def TypedDataArray.create_finalizer (h : BufferHeap) : BufferHeap :=
  free_peer (free_buffer h)

/-- Heap effect of the construction in
`UnverifiedDartHandle::new_external_typed_data_with_drop` (dart_handle.rs,
lines 724-752): identical to `TypedDataArray::create` — leak the buffer, then
leak the peer descriptor. -/
def new_external_typed_data_with_drop_allocs (h : BufferHeap) : BufferHeap :=
  alloc_peer (alloc_buffer h)

/-- Heap effect of one invocation of the finalizer registered by
`new_external_typed_data_with_drop` (its local `free::<T>`): reconstruct and
drop the buffer from `*peer` — and nothing else; the peer box is not freed. -/
def new_external_typed_data_with_drop_finalizer (h : BufferHeap) : BufferHeap :=
  free_buffer h

/--
`FunctionRegister` (lib.rs): the two-way name/function table.  The two
`HashMap`s are modelled as association lists whose lookup takes the most
recent binding, matching `HashMap::insert`'s replace-on-equal-key semantics;
a name is the byte content of its leaked `CStr` (terminating nul excluded).
Function pointers are `Nat` codes.
-/
structure FunctionRegister where
  functions : List (List Nat × Nat)
  function_names : List (Nat × List Nat)
deriving DecidableEq

/-- `FunctionRegister::default()`: both maps empty. -/
def FunctionRegister.default : FunctionRegister := ⟨[], []⟩

/-- `HashMap` lookup on the name map: the value of the most recent binding of
`name`, if any. -/
def fns_get (m : List (List Nat × Nat)) (name : List Nat) : Option Nat :=
  (m.find? (fun e => e.1 == name)).map Prod.snd

/-- `HashMap` lookup on the pointer map: the value of the most recent binding
of `function`, if any. -/
def names_get (m : List (Nat × List Nat)) (function : Nat) : Option (List Nat) :=
  (m.find? (fun e => e.1 == function)).map Prod.snd

/--
`FunctionRegister::add_function` (lib.rs, lines 52-69): build a `CString` from
`name` (`none` models the `.unwrap()` panic when `name` has an interior nul
byte), leak its bytes, and insert into both maps.
-/
def FunctionRegister.add_function (self : FunctionRegister) (function : Nat)
    (name : List Nat) : Option FunctionRegister :=
  if name.all c_nonzero then
    some ⟨(name, function) :: self.functions,
          (function, name) :: self.function_names⟩
  else none

/-- `FunctionRegister::get_function` (lib.rs, lines 77-80): read the bytes at
the caller's C-string pointer and look them up in the name map. -/
def FunctionRegister.get_function (self : FunctionRegister) (name : List Nat) :
    Option Nat :=
  fns_get self.functions name

/-- `FunctionRegister::get_name_from_function` (lib.rs, lines 85-92): a
`Dart_NativeFunction` is `Option`al; `and_then` into the pointer map. -/
def FunctionRegister.get_name_from_function (self : FunctionRegister)
    (function : Option Nat) : Option (List Nat) :=
  function.bind (fun f => names_get self.function_names f)

/-- Registration of a list of (name, function) entries starting from a given
register, as the `init`-time `Registerer`s do through repeated
`add_function` calls; `none` when any single addition panicked. -/
def register_all_from (reg : FunctionRegister) :
    List (List Nat × Nat) → Option FunctionRegister
  | [] => some reg
  | e :: rest =>
    match reg.add_function e.2 e.1 with
    | some reg2 => register_all_from reg2 rest
    | none => none

/-- Registration of a list of entries into a fresh (default) register. -/
def register_all (entries : List (List Nat × Nat)) : Option FunctionRegister :=
  register_all_from FunctionRegister.default entries

/--
Result of the host-facing `resolve_name` callback.  `res f` is a normal
return of the (nullable) `Dart_NativeFunction`; `propagated` models
`dart_unwrap!` transferring a `to_string` error into the host (no return);
`panicked` models `get_error` panicking on a host contract violation.
-/
inductive ResolveNameResult where
  | res (f : Option Nat)
  | propagated
  | panicked
deriving DecidableEq

/--
`resolve_name` (lib.rs, lines 176-195): classify the name handle (`.ok()?`
turns an error into a null result), return null unless the handle is a string,
convert it with `to_string` (`dart_unwrap!` propagates a conversion error into
the host), and look the bytes up in the register.  The write to
`auto_scope_setup` is a side effect with no bearing on the returned value and
is not modelled.
-/
def resolve_name (name : UnverifiedDartHandle) (reg : FunctionRegister) :
    ResolveNameResult :=
  match name.get_error with
  | .panicked => .panicked
  | .err _ => .res none
  | .ok nm =>
    if nm.isString = false then .res none
    else
      match nm.toStringResult with
      | none => .propagated
      | some bytes => .res (reg.get_function bytes)

/-- The bytes of the static fallback string `"<Unknown Native Function>"`
(terminating nul excluded) returned by `resolve_function` for an unregistered
pointer. -/
def unknown_native_function_name : List Nat :=
  "<Unknown Native Function>".toList.map Char.toNat

/--
`resolve_function` (lib.rs, lines 200-207): reverse lookup for diagnostics.
The returned C pointer is modelled by the bytes it points at, `none` standing
for a null pointer — which the function never returns: an unregistered
pointer yields the static fallback string instead.
-/
def resolve_function (reg : FunctionRegister) (function : Option Nat) :
    Option (List Nat) :=
  match reg.get_name_from_function function with
  | some x => some x
  | none => some unknown_native_function_name

/-- Concrete entries for the resolution scenario: `"f1" -> 10`, `"f2" -> 20`
(names as ASCII bytes). -/
def c8_entries : List (List Nat × Nat) := [([102, 49], 10), ([102, 50], 20)]

/-- The register built from `c8_entries`. -/
def c8_reg : FunctionRegister :=
  (register_all c8_entries).getD FunctionRegister.default

/-- A non-error string handle whose `to_string` yields the unregistered name
`"f3"`. -/
def c8_handle_f3 : UnverifiedDartHandle :=
  ⟨1, false, false, false, false, false, true, some [102, 51]⟩

/-- Concrete entries for the bijection claim: `"f1" -> 10`, `"f2" -> 20`. -/
def c7_entries : List (List Nat × Nat) := [([102, 49], 10), ([102, 50], 20)]

/-- The register built from `c7_entries`. -/
def c7_reg : FunctionRegister :=
  (register_all c7_entries).getD FunctionRegister.default

/-- Two distinct names (`"a"` and `"b"`) both registered to function pointer
`7`: the input refuting the unconditional bijection claim. -/
def c7_entries_bad : List (List Nat × Nat) := [([97], 7), ([98], 7)]

/-- The register built from `c7_entries_bad`. -/
def c7_reg_bad : FunctionRegister :=
  (register_all c7_entries_bad).getD FunctionRegister.default

/-- A concrete host for instantiating the accessor theorem. -/
def c9_host : Host := ⟨fun _ => 11, fun _ => 12⟩

/-- A concrete non-error handle. -/
def c9_handle : UnverifiedDartHandle := ⟨1, false, false, false, false, false, false, none⟩

/-- A concrete `Api`-classified error. -/
def c9_api_error : Error := ⟨c9_handle, .Api⟩

/-- Scanning up to the terminator recovers exactly the bytes a `CString` was
built from, given its no-interior-nul invariant. -/
theorem takeWhile_append_nul (bytes : List Nat) (h : bytes.all c_nonzero = true) :
    (bytes ++ [0]).takeWhile c_nonzero = bytes := by
  induction bytes with
  | nil => rfl
  | cons b bs ih =>
    simp only [List.all_cons, Bool.and_eq_true] at h
    simp [List.takeWhile, h.1, ih h.2]

/-- Lookup after inserting into the name map: the inserted binding shadows. -/
theorem fns_get_cons (m : List (List Nat × Nat)) (name : List Nat) (fn : Nat)
    (n : List Nat) :
    fns_get ((name, fn) :: m) n = if name = n then some fn else fns_get m n := by
  by_cases h : name = n
  · subst h; simp [fns_get, List.find?]
  · have hb : (name == n) = false := beq_eq_false_iff_ne.mpr h
    simp [fns_get, List.find?, h, hb]

/-- Lookup after inserting into the pointer map: the inserted binding
shadows. -/
theorem names_get_cons (m : List (Nat × List Nat)) (f0 : Nat) (n0 : List Nat)
    (f : Nat) :
    names_get ((f0, n0) :: m) f = if f0 = f then some n0 else names_get m f := by
  by_cases h : f0 = f
  · subst h; simp [names_get, List.find?]
  · have hb : (f0 == f) = false := beq_eq_false_iff_ne.mpr h
    simp [names_get, List.find?, h, hb]

/-- A successful `add_function` inserts the entry at the front of both maps. -/
theorem add_function_some (reg : FunctionRegister) (f : Nat) (n : List Nat)
    (reg2 : FunctionRegister) (h : reg.add_function f n = some reg2) :
    reg2 = ⟨(n, f) :: reg.functions, (f, n) :: reg.function_names⟩ := by
  unfold FunctionRegister.add_function at h
  split at h
  · exact (Option.some.inj h).symm
  · cases h

/-- Registering entries none of which carries name `n` does not change what
`n` resolves to. -/
theorem register_preserves_fns :
    ∀ (entries : List (List Nat × Nat)) (reg1 reg2 : FunctionRegister)
      (n : List Nat),
    register_all_from reg1 entries = some reg2 →
    (∀ e ∈ entries, e.1 ≠ n) →
    reg2.get_function n = reg1.get_function n := by
  intro entries
  induction entries with
  | nil =>
    intro reg1 reg2 n h _
    simp only [register_all_from] at h
    injection h with hh
    rw [hh]
  | cons e rest ih =>
    intro reg1 reg2 n h hne
    cases hA : reg1.add_function e.2 e.1 with
    | none => simp [register_all_from, hA] at h
    | some reg_mid =>
      have h2 : register_all_from reg_mid rest = some reg2 := by
        simpa [register_all_from, hA] using h
      have hmid := add_function_some reg1 e.2 e.1 reg_mid hA
      have hstep := ih reg_mid reg2 n h2
        (fun x hx => hne x (List.mem_cons_of_mem e hx))
      rw [hstep, hmid]
      show fns_get ((e.1, e.2) :: reg1.functions) n = fns_get reg1.functions n
      rw [fns_get_cons]
      simp [hne e (List.mem_cons_self e rest)]

/-- Registering entries none of which carries pointer `f` does not change
what `f` reverse-resolves to. -/
theorem register_preserves_names :
    ∀ (entries : List (List Nat × Nat)) (reg1 reg2 : FunctionRegister) (f : Nat),
    register_all_from reg1 entries = some reg2 →
    (∀ e ∈ entries, e.2 ≠ f) →
    names_get reg2.function_names f = names_get reg1.function_names f := by
  intro entries
  induction entries with
  | nil =>
    intro reg1 reg2 f h _
    simp only [register_all_from] at h
    injection h with hh
    rw [hh]
  | cons e rest ih =>
    intro reg1 reg2 f h hne
    cases hA : reg1.add_function e.2 e.1 with
    | none => simp [register_all_from, hA] at h
    | some reg_mid =>
      have h2 : register_all_from reg_mid rest = some reg2 := by
        simpa [register_all_from, hA] using h
      have hmid := add_function_some reg1 e.2 e.1 reg_mid hA
      have hstep := ih reg_mid reg2 f h2
        (fun x hx => hne x (List.mem_cons_of_mem e hx))
      rw [hstep, hmid]
      show names_get ((e.2, e.1) :: reg1.function_names) f
          = names_get reg1.function_names f
      rw [names_get_cons]
      simp [hne e (List.mem_cons_self e rest)]

/-- With pairwise-distinct names, every registered entry's name resolves to
its function pointer. -/
theorem registered_lookup_fn :
    ∀ (entries : List (List Nat × Nat)) (reg1 reg2 : FunctionRegister),
    register_all_from reg1 entries = some reg2 →
    (entries.map Prod.fst).Nodup →
    ∀ e ∈ entries, reg2.get_function e.1 = some e.2 := by
  intro entries
  induction entries with
  | nil => intro reg1 reg2 _ _ e he; cases he
  | cons e0 rest ih =>
    intro reg1 reg2 h hnd e he
    cases hA : reg1.add_function e0.2 e0.1 with
    | none => simp [register_all_from, hA] at h
    | some reg_mid =>
      have h2 : register_all_from reg_mid rest = some reg2 := by
        simpa [register_all_from, hA] using h
      have hmid := add_function_some reg1 e0.2 e0.1 reg_mid hA
      simp only [List.map_cons, List.nodup_cons] at hnd
      rcases List.mem_cons.mp he with rfl | hrest
      · have hpres := register_preserves_fns rest reg_mid reg2 e.1 h2
          (fun x hx hcontra =>
            hnd.1 (hcontra ▸ List.mem_map_of_mem Prod.fst hx))
        rw [hpres, hmid]
        show fns_get ((e.1, e.2) :: reg1.functions) e.1 = some e.2
        rw [fns_get_cons]
        simp
      · exact ih reg_mid reg2 h2 hnd.2 e hrest

/-- With pairwise-distinct function pointers, every registered entry's pointer
reverse-resolves to its name. -/
theorem registered_lookup_name :
    ∀ (entries : List (List Nat × Nat)) (reg1 reg2 : FunctionRegister),
    register_all_from reg1 entries = some reg2 →
    (entries.map Prod.snd).Nodup →
    ∀ e ∈ entries, names_get reg2.function_names e.2 = some e.1 := by
  intro entries
  induction entries with
  | nil => intro reg1 reg2 _ _ e he; cases he
  | cons e0 rest ih =>
    intro reg1 reg2 h hnd e he
    cases hA : reg1.add_function e0.2 e0.1 with
    | none => simp [register_all_from, hA] at h
    | some reg_mid =>
      have h2 : register_all_from reg_mid rest = some reg2 := by
        simpa [register_all_from, hA] using h
      have hmid := add_function_some reg1 e0.2 e0.1 reg_mid hA
      simp only [List.map_cons, List.nodup_cons] at hnd
      rcases List.mem_cons.mp he with rfl | hrest
      · have hpres := register_preserves_names rest reg_mid reg2 e.2 h2
          (fun x hx hcontra =>
            hnd.1 (hcontra ▸ List.mem_map_of_mem Prod.snd hx))
        rw [hpres, hmid]
        show names_get ((e.2, e.1) :: reg1.function_names) e.2 = some e.1
        rw [names_get_cons]
        simp
      · exact ih reg_mid reg2 h2 hnd.2 e hrest

/--
Claim C1: for every `CObject` tree without a host-owned-buffer leaf,
`CObject::from(v.into_leak())` rebuilds a structurally equal value: scalars
(`Null`, `Bool`, `Int32`, `Int64`, `Double`, `SendPort`) by value, `String`s
by byte content, `Array`s element-wise in insertion order.  The
`stringsValid` hypothesis states the `CString` type invariant (no interior
nul byte) that every Rust-side `CObject` satisfies by construction.
-/
theorem c1_from_host_into_leak_roundtrip :
    ∀ v : CObject, CObject.stringsValid v = true → CObject.noHostBuf v = true →
    CObject.from_host (CObject.into_leak v) = some v := by
  exact @CObject.rec
    (fun v => CObject.stringsValid v = true → CObject.noHostBuf v = true →
      CObject.from_host (CObject.into_leak v) = some v)
    (fun xs => stringsValidList xs = true → noHostBufList xs = true →
      fromHostList (intoLeakList xs) = some xs)
    (fun _ _ => rfl)
    (fun _ _ _ => rfl)
    (fun _ _ _ => rfl)
    (fun _ _ _ => rfl)
    (fun _ _ _ => rfl)
    (fun bytes hs _ => by
      simp only [CObject.stringsValid] at hs
      simp [CObject.into_leak, CObject.from_host, takeWhile_append_nul bytes hs])
    (fun _ _ _ => rfl)
    (fun xs ih hs hn => by
      simp only [CObject.stringsValid] at hs
      simp only [CObject.noHostBuf] at hn
      simp [CObject.into_leak, CObject.from_host, ih hs hn])
    (fun t => by
      cases t with
      | WithoutFinalizer x => intro _ hn; simp [CObject.noHostBuf] at hn
      | WithFinalizer x => intro _ _; rfl)
    (fun _ _ => rfl)
    (fun x xs ih1 ih2 hs hn => by
      simp only [stringsValidList, Bool.and_eq_true] at hs
      simp only [noHostBufList, Bool.and_eq_true] at hn
      simp [intoLeakList, fromHostList, ih1 hs.1 hn.1, ih2 hs.2 hn.2])

/-- Witness for C1 at a concrete tree exercising every constructor. -/
theorem c1_roundtrip_witness :
    CObject.stringsValid c1_example = true ∧ CObject.noHostBuf c1_example = true ∧
    CObject.from_host (CObject.into_leak c1_example) = some c1_example :=
  ⟨rfl, rfl, c1_from_host_into_leak_roundtrip c1_example rfl rfl⟩

/--
Claim C2: `get_error` refines the spec's classification: the four taxonomy
predicates are tested in the fixed order UnhandledException, Api, Compilation,
Fatal; the first match tags the error; an error handle matching none panics;
a non-error handle is returned unchanged as `Ok`.
-/
theorem c2_get_error_matches_spec_order :
    ∀ h : UnverifiedDartHandle, h.get_error = classify_spec h := by
  intro h
  rcases h with ⟨raw, e, ue, api, comp, fat, str, tsr⟩
  cases e <;> cases ue <;> cases api <;> cases comp <;> cases fat <;> rfl

/--
Claim C3 (amended): a wrapped native function that panics with a string
message `X` containing no nul byte is caught at the dispatch boundary and
converted into an `Api`-classified host error carrying exactly `X` (a
non-string payload yields the fixed fallback message), and that error is
propagated into the host, never returning normally; a non-panicking call
returns normally.  When `X` contains a nul byte, `Error::new_api(X).unwrap()`
itself panics after the catch: see the counterexample.
-/
theorem c3_sync_panic_containment_amended :
    ∀ X : String, has_nul X = false →
    catch_panic_hook (.panicked (.stringPayload X))
        = .propagated ErrorKind.Api X ∧
    catch_panic_hook (.panicked (.strPayload X))
        = .propagated ErrorKind.Api X ∧
    catch_panic_hook (.panicked .other)
        = .propagated ErrorKind.Api "Panic of unknown nature in Rust code!" ∧
    catch_panic_hook .ok = .returned := by
  intro X hX
  refine ⟨?_, ?_, ?_, rfl⟩
  · simp [catch_panic_hook, panic_message, Error.new_api, hX]
  · simp [catch_panic_hook, panic_message, Error.new_api, hX]
  · rfl

/-- Witness for C3 at the concrete message `"boom"`. -/
theorem c3_sync_panic_containment_witness :
    has_nul "boom" = false ∧
    catch_panic_hook (.panicked (.stringPayload "boom"))
      = .propagated ErrorKind.Api "boom" :=
  ⟨rfl, (c3_sync_panic_containment_amended "boom" rfl).1⟩

/--
Counterexample to C3 as stated: for the panic message consisting of a single
nul byte, the wrapper does not propagate an Api error — the `.unwrap()` on
`Error::new_api` panics after the catch, so the panic escapes the dispatch
boundary as unwinding.
-/
theorem c3_nul_message_counterexample :
    catch_panic_hook (.panicked (.stringPayload "\x00"))
        = SyncDispatchResult.panickedInHook ∧
    catch_panic_hook (.panicked (.stringPayload "\x00"))
        ≠ SyncDispatchResult.propagated ErrorKind.Api "\x00" := by
  refine ⟨rfl, ?_⟩
  decide

/--
Claim C4: in `catch_async_panic`, once the message ingests and the port is
legal, the process is aborted exactly when the user handler panics; a handler
that returns normally does not abort.  The result type has no error variant:
an async panic is never converted into a host-level error, and the catch
prevents unwinding into the host.
-/
theorem c4_async_panic_aborts :
    ∀ (func : CObject → Port → RunOutcome) (port : Int)
      (message : Dart_CObject) (m : CObject) (p : Port),
    CObject.from_host message = some m →
    Port.from_port port = some p →
    (catch_async_panic func port message = .aborted ↔ func m p ≠ .ok) := by
  intro func port message m p h1 h2
  cases hf : func m p with
  | ok => simp [catch_async_panic, h1, h2, hf]
  | panicked q => simp [catch_async_panic, h1, h2, hf]

/-- Witness for C4: a handler that always panics aborts the process on a
legal port and a `Null` message. -/
theorem c4_async_panic_witness :
    catch_async_panic c4_panicking_handler 1 Dart_CObject.null
      = AsyncDispatchResult.aborted :=
  (c4_async_panic_aborts c4_panicking_handler 1 Dart_CObject.null
    CObject.Null ⟨1⟩ rfl rfl).mpr (by decide)

/--
Claim C5 (amended): construction leaks both the buffer and the peer
descriptor and frees nothing, for both construction paths.  One invocation of
`TypedDataArray::create`'s finalizer frees both allocations — nothing stays
leaked and nothing is freed twice.  One invocation of
`new_external_typed_data_with_drop`'s finalizer frees only the buffer, never
double-frees, but leaves the peer descriptor allocated forever: see the
counterexample against the claim's "no allocation leaked".
-/
theorem c5_finalizer_heap_effects :
    TypedDataArray.create_allocs empty_heap
        = { bufAllocated := true, peerAllocated := true, doubleFree := false } ∧
    TypedDataArray.create_finalizer (TypedDataArray.create_allocs empty_heap)
        = { bufAllocated := false, peerAllocated := false, doubleFree := false } ∧
    new_external_typed_data_with_drop_allocs empty_heap
        = { bufAllocated := true, peerAllocated := true, doubleFree := false } ∧
    new_external_typed_data_with_drop_finalizer
        (new_external_typed_data_with_drop_allocs empty_heap)
        = { bufAllocated := false, peerAllocated := true, doubleFree := false } := by
  decide

/--
Counterexample to C5 as stated: after one invocation of the finalizer
registered by `new_external_typed_data_with_drop`, the peer descriptor — an
allocation the construction leaked — is still allocated, so the finalizer
does not deallocate everything the construction leaked.
-/
theorem c5_peer_leak_counterexample :
    (new_external_typed_data_with_drop_finalizer
      (new_external_typed_data_with_drop_allocs empty_heap)).peerAllocated
      = true := by
  decide

/--
Claim C6: `Port::from_port` yields no endpoint exactly for the
`ILLEGAL_PORT` sentinel, and wraps every other port id unchanged.
-/
theorem c6_illegal_port_rejected :
    ∀ p : Int, (Port.from_port p = none ↔ p = ILLEGAL_PORT) ∧
      (Port.from_port p = some ⟨p⟩ ↔ p ≠ ILLEGAL_PORT) := by
  intro p
  by_cases h : p = ILLEGAL_PORT <;> simp [Port.from_port, h]

/--
Claim C7 (amended): for entries whose names are pairwise distinct and whose
function pointers are pairwise distinct (every name nul-free, as successful
registration requires), looking up a registered name with `get_function` and
reverse-looking the resulting pointer with `get_name_from_function` returns
exactly the originally registered name bytes.  Without distinct pointers the
round trip fails: see the counterexample.
-/
theorem c7_registry_bijection_amended :
    ∀ (entries : List (List Nat × Nat)) (reg : FunctionRegister),
    register_all entries = some reg →
    (entries.map Prod.fst).Nodup →
    (entries.map Prod.snd).Nodup →
    ∀ e ∈ entries,
      reg.get_name_from_function (reg.get_function e.1) = some e.1 := by
  intro entries reg hreg hn hp e he
  simp only [register_all] at hreg
  have h1 : reg.get_function e.1 = some e.2 :=
    registered_lookup_fn entries FunctionRegister.default reg hreg hn e he
  have h2 : names_get reg.function_names e.2 = some e.1 :=
    registered_lookup_name entries FunctionRegister.default reg hreg hp e he
  rw [h1]
  simpa [FunctionRegister.get_name_from_function] using h2

/-- Witness for C7 on the two-entry register `{"f1" -> 10, "f2" -> 20}`. -/
theorem c7_registry_bijection_witness :
    register_all c7_entries = some c7_reg ∧
    c7_reg.get_name_from_function (c7_reg.get_function [102, 49])
      = some [102, 49] :=
  ⟨rfl, c7_registry_bijection_amended c7_entries c7_reg rfl (by decide)
    (by decide) ([102, 49], 10) (by decide)⟩

/--
Counterexample to C7 as stated: registering the distinct names `"a"` and
`"b"` both to function pointer `7` makes the reverse lookup for `"a"` return
`"b"` — the claimed name round trip fails for an arbitrary set of registered
entries.
-/
theorem c7_shared_pointer_counterexample :
    register_all c7_entries_bad = some c7_reg_bad ∧
    c7_reg_bad.get_name_from_function (c7_reg_bad.get_function [97])
      ≠ some [97] := by
  decide

/--
Claim C8: after registering a set of entries (distinct names), `get_function`
returns exactly the registered pointer for a registered name and `none` for a
never-registered name, and the host-facing `resolve_name` surfaces the latter
as a null result (`res none`) for a well-formed string handle.
-/
theorem c8_name_resolution :
    ∀ (entries : List (List Nat × Nat)) (reg : FunctionRegister),
    register_all entries = some reg →
    (entries.map Prod.fst).Nodup →
    (∀ e ∈ entries, reg.get_function e.1 = some e.2) ∧
    (∀ n, n ∉ entries.map Prod.fst → reg.get_function n = none) ∧
    (∀ (h : UnverifiedDartHandle) (n : List Nat),
      h.isError = false → h.isString = true → h.toStringResult = some n →
      n ∉ entries.map Prod.fst →
      resolve_name h reg = ResolveNameResult.res none) := by
  intro entries reg hreg hnd
  simp only [register_all] at hreg
  have hnot : ∀ n, n ∉ entries.map Prod.fst → reg.get_function n = none := by
    intro n hn
    have hpres := register_preserves_fns entries FunctionRegister.default reg n
      hreg (fun e he hcontra => hn (hcontra ▸ List.mem_map_of_mem Prod.fst he))
    rw [hpres]
    rfl
  refine ⟨fun e he =>
    registered_lookup_fn entries FunctionRegister.default reg hreg hnd e he,
    hnot, ?_⟩
  intro h n hE hS hT hn
  simp [resolve_name, UnverifiedDartHandle.get_error, hE, hS, hT, hnot n hn]

/-- Witness for C8 on the register `{"f1" -> 10, "f2" -> 20}` and the
unregistered name `"f3"`. -/
theorem c8_name_resolution_witness :
    c8_reg.get_function [102, 49] = some 10 ∧
    c8_reg.get_function [102, 51] = none ∧
    resolve_name c8_handle_f3 c8_reg = ResolveNameResult.res none := by
  obtain ⟨ha, hb, hc⟩ := c8_name_resolution c8_entries c8_reg rfl (by decide)
  exact ⟨ha ([102, 49], 10) (by decide), hb [102, 51] (by decide),
    hc c8_handle_f3 [102, 51] rfl rfl rfl (by decide)⟩

/--
Claim C9: `Error::get_exception` and `Error::get_stack_trace` return a
present value only for the `UnhandledException` classification: for errors
tagged `Api`, `Compilation` or `Fatal`, both return `None` (without touching
the host).
-/
theorem c9_accessors_only_unhandled_exception :
    ∀ (host : Host) (e : Error), e.kind ≠ ErrorKind.UnhandledException →
    Error.get_exception host e = AccessorResult.value none ∧
    Error.get_stack_trace host e = AccessorResult.value none := by
  intro host e hk
  rcases e with ⟨h, k⟩
  cases k with
  | UnhandledException => exact absurd rfl hk
  | Api => exact ⟨rfl, rfl⟩
  | Compilation => exact ⟨rfl, rfl⟩
  | Fatal => exact ⟨rfl, rfl⟩

/-- Witness for C9 on a concrete `Api`-classified error. -/
theorem c9_accessors_witness :
    Error.get_exception c9_host c9_api_error = AccessorResult.value none ∧
    Error.get_stack_trace c9_host c9_api_error = AccessorResult.value none :=
  c9_accessors_only_unhandled_exception c9_host c9_api_error (by decide)

/--
Claim C10: `resolve_function` never returns a null pointer: it returns the
registered name when there is one and the fixed static string
`"<Unknown Native Function>"` for a pointer with no registered name.
-/
theorem c10_resolve_function_never_null :
    ∀ (reg : FunctionRegister) (function : Option Nat),
    (resolve_function reg function).isSome = true ∧
    (reg.get_name_from_function function = none →
      resolve_function reg function = some unknown_native_function_name) ∧
    (∀ n, reg.get_name_from_function function = some n →
      resolve_function reg function = some n) := by
  intro reg function
  cases hname : reg.get_name_from_function function with
  | none =>
    refine ⟨by simp [resolve_function, hname], fun _ => by
      simp [resolve_function, hname], fun n hn => ?_⟩
    cases hn
  | some x =>
    refine ⟨by simp [resolve_function, hname], fun hcontra => ?_, fun n hn => ?_⟩
    · cases hcontra
    · injection hn with hh
      simp [resolve_function, hname, hh]

/-- Witness for C10: the empty register reverse-resolves pointer `3` to the
fallback diagnostic string. -/
theorem c10_resolve_function_witness :
    (resolve_function FunctionRegister.default (some 3)).isSome = true ∧
    resolve_function FunctionRegister.default (some 3)
      = some unknown_native_function_name := by
  obtain ⟨ha, hb, _⟩ :=
    c10_resolve_function_never_null FunctionRegister.default (some 3)
  exact ⟨ha, hb rfl⟩
